import Mathlib

/-!
Shallow embedding of the chat-session manager of `src/web/src/components/ChatPage.tsx`
(repository `theglobe`): the Session Store (messages + conversationId + localStorage
mirror), the Exchange Coordinator (`handleSendMessage`), and the Backoff Timer
(the countdown `useEffect`).

Modelling conventions:
* Clock readings (`Date.now()`, in milliseconds) are natural numbers; points in time
  stored in `Message.timestamp` are the raw millisecond values.
* React state plus the two `localStorage` keys are bundled into one `ChatState`
  record; the persistence `useEffect`s become explicit state transformers.
* A `fetch` round trip is an oracle value of type `FetchOutcome` (network error, or
  a status code, optional `Retry-After` header, and the result of `response.json()`).
* JS exceptions are modelled by totality: every branch of the source's
  `try`/`catch` is a branch of a total Lean function.
-/

namespace TheGlobe

/-- One chat turn, `interface Message` of `ChatPage.tsx`.  The source stores
`sender` as the string literal `'user'` or `'ai'`; we keep it a string to match
the untyped comparisons (`msg.sender === 'user'`) and the untyped localStorage
round trip. -/
structure Message where
  id : String
  text : String
  sender : String
  timestamp : Nat
  deriving Repr, DecidableEq

/-- A message as it sits serialized in `localStorage` (`JSON.stringify`): the
timestamp field may be absent, which the load path replaces by `new Date()`. -/
structure StoredMessage where
  id : String
  text : String
  sender : String
  timestamp : Option Nat
  deriving Repr, DecidableEq

/-- Result of `JSON.parse` on the `chatMessages` localStorage value. -/
inductive SavedBlob where
  /-- `JSON.parse` throws (caught by the load path). -/
  | malformed
  /-- Parses, but not to an array (`.length > 1` is false or `.map` throws; caught). -/
  | notSeq
  /-- Parses to an array of messages. -/
  | seq (msgs : List StoredMessage)
  deriving Repr, DecidableEq

/-- The two durable localStorage keys used by the component:
`'chatMessages'` and `'conversationId'`.  `none` = key absent. -/
structure StorageState where
  chatMessages : Option SavedBlob
  conversationId : Option String
  deriving Repr, DecidableEq

/-- The component state: React `useState` hooks plus the localStorage mirror. -/
structure ChatState where
  messages : List Message
  inputValue : String
  isTyping : Bool
  conversationId : String
  retryUntil : Option Int
  retrySecondsLeft : Int
  storage : StorageState
  deriving Repr, DecidableEq

/-- The seeded assistant welcome message (`id: '1'`, `text: t('chat.welcome')`,
`sender: 'ai'`): the welcome text depends on the active locale, so it is a
parameter. -/
def seedMessage (welcomeText : String) (now : Nat) : Message :=
  { id := "1", text := welcomeText, sender := "ai", timestamp := now }

/-! ### String helpers: JS `String.prototype.includes`, `parseInt`, and the
regex `/(\d+)\s*second/` used on the 429 error body. -/

/-- Whether `p` is a prefix of `s` (on character lists). -/
def listStartsWith : List Char → List Char → Bool
  | [], _ => true
  | _ :: _, [] => false
  | p :: ps, c :: cs => p == c && listStartsWith ps cs

/-- Whether pattern `pat` occurs as a contiguous substring of `s`. -/
def listHasSubstr (pat : List Char) : List Char → Bool
  | [] => listStartsWith pat []
  | c :: cs => listStartsWith pat (c :: cs) || listHasSubstr pat cs

/-- JS `s.includes(pat)`. -/
def strIncludes (s pat : String) : Bool :=
  listHasSubstr pat.toList s.toList

/-- Numeric value of a decimal digit character. -/
def digitVal (c : Char) : Nat := c.toNat - 48

/-- Value of a list of decimal digit characters, most significant first. -/
def digitsToNat (ds : List Char) : Nat :=
  ds.foldl (fun a c => 10 * a + digitVal c) 0

/-- The maximal leading run of decimal digits, `none` if there is none. -/
def leadingDigits (cs : List Char) : Option (List Char) :=
  let ds := cs.takeWhile Char.isDigit
  if ds.isEmpty then none else some ds

/-- JS `parseInt(s, 10)`: skip leading whitespace, optional sign, read a maximal
run of decimal digits ignoring any trailing characters; `none` models `NaN`. -/
def jsParseIntDec (s : String) : Option Int :=
  match s.toList.dropWhile Char.isWhitespace with
  | '-' :: rest => (leadingDigits rest).map (fun ds => -(digitsToNat ds : Int))
  | '+' :: rest => (leadingDigits rest).map (fun ds => (digitsToNat ds : Int))
  | rest => (leadingDigits rest).map (fun ds => (digitsToNat ds : Int))

/-- Try the regex `/(\d+)\s*second/` anchored at the head of `cs`: a nonempty
digit run, then whitespace, then the literal `second`; yields the digit run's
value. -/
def matchRetryHere (cs : List Char) : Option Nat :=
  let ds := cs.takeWhile Char.isDigit
  if ds.isEmpty then none
  else
    let rest := (cs.drop ds.length).dropWhile Char.isWhitespace
    if listStartsWith "second".toList rest then some (digitsToNat ds) else none

/-- Leftmost match of `/(\d+)\s*second/`, as JS regex search does. -/
def findRetryNum : List Char → Option Nat
  | [] => none
  | c :: cs =>
    match matchRetryHere (c :: cs) with
    | some n => some n
    | none => findRetryNum cs

/-- `(body?.detail || '').match(/(\d+)\s*second/)`, returning `parseInt(m[1], 10)`. -/
def detailRetrySeconds (detail : String) : Option Nat :=
  findRetryNum detail.toList

/-! ### The outbound request payload (`handleSendMessage`, request-building part). -/

/-- One `{role, content}` entry of the outbound `conversation_history`. -/
structure HistoryEntry where
  role : String
  content : String
  deriving Repr, DecidableEq

/-- The hard-coded literal the source filters on:
`msg.text.includes('สวัสดีค่ะ ดิฉันเป็นผู้ช่วย AI')`. -/
def welcomeMarker : String := "สวัสดีค่ะ ดิฉันเป็นผู้ช่วย AI"

/-- The last `n` elements of a list (JS `slice(-n)` for `n > 0`). -/
def lastN {α : Type _} (n : Nat) (l : List α) : List α :=
  l.drop (l.length - n)

/-- The outbound history: drop every message whose text contains the literal
Thai welcome marker, keep the last 10, map to `{role, content}`. -/
def conversationHistory (msgs : List Message) : List HistoryEntry :=
  (lastN 10 (msgs.filter (fun msg => ! strIncludes msg.text welcomeMarker))).map
    (fun msg =>
      { role := if msg.sender == "user" then "user" else "assistant"
        content := msg.text })

/-- The JSON body of the `POST /chat` request. -/
structure ChatPayload where
  message : String
  conversation_history : List HistoryEntry
  conversation_id : Option String
  deriving Repr, DecidableEq

/-- The request body built by `handleSendMessage` from the state it closed over
(the `messages` value from before the optimistic user append). -/
def buildPayload (st : ChatState) (userText : String) : ChatPayload :=
  { message := userText
    conversation_history := conversationHistory st.messages
    conversation_id := if st.conversationId == "" then none else some st.conversationId }

/-! ### The response side. -/

/-- A parsed JSON response body; each field may be absent.  (`response` is read
unconditionally in the success path; a body lacking it would yield the JS
`undefined` value, modelled as the empty string by `Option.getD`.) -/
structure RespJson where
  detail : Option String
  response : Option String
  conversation_id : Option String
  deriving Repr, DecidableEq

/-- Result of `response.json()`. -/
inductive BodyParse where
  /-- The body is not valid JSON: `response.json()` rejects. -/
  | parseError
  /-- The body parses to `j`. -/
  | ok (j : RespJson)
  deriving Repr, DecidableEq

/-- Outcome of the `fetch` round trip. -/
inductive FetchOutcome where
  /-- `fetch` itself rejects (network/transport failure). -/
  | networkError
  /-- An HTTP response with its status, optional `Retry-After` header, and body. -/
  | response (status : Nat) (retryAfterHeader : Option String) (body : BodyParse)
  deriving Repr, DecidableEq

/-- `response.ok`: status in the 2xx range. -/
def statusOk (status : Nat) : Bool :=
  decide (200 ≤ status) && decide (status < 300)

/-- Retry delay taken from the 429 body: `retrySec` stays at its default 60
unless the body parses and its `detail` matches `/(\d+)\s*second/`. -/
def bodyRetryDelay : BodyParse → Int
  | .parseError => 60
  | .ok j =>
    match detailRetrySeconds (j.detail.getD "") with
    | some n => (n : Int)
    | none => 60

/-- Retry delay of the 429 path.  The source reads the `Retry-After` header
first; `if (ra)` means a present-but-empty header string is falsy and falls
through to the body branch, while a present non-empty header that fails
`parseInt` leaves the default 60 without consulting the body. -/
def retryDelaySeconds (retryAfterHeader : Option String) (body : BodyParse) : Int :=
  match retryAfterHeader with
  | some ra =>
    if ra == "" then bodyRetryDelay body
    else
      match jsParseIntDec ra with
      | some n => n
      | none => 60
  | none => bodyRetryDelay body

/-- JS `String.prototype.trim`: strip leading and trailing whitespace.
(Structural and kernel-reducible, unlike `String.trim`.) -/
def jsTrim (s : String) : String :=
  String.mk (((s.toList.dropWhile Char.isWhitespace).reverse.dropWhile
    Char.isWhitespace).reverse)

/-- The fixed apologetic text of the generic failure notice. -/
def errorText : String := "Sorry, I encountered an error. Please try again later."

/-- `Rate limit exceeded. Try again in ${retrySec} seconds.` -/
def rateLimitText (retrySec : Int) : String :=
  "Rate limit exceeded. Try again in " ++ toString retrySec ++ " seconds."

/-- The synthetic assistant notice appended by the `catch` block. -/
def syntheticErrorMessage (replyNow : Nat) : Message :=
  { id := Nat.repr (replyNow + 1), text := errorText, sender := "ai", timestamp := replyNow }

/-- `handleSendMessage`: the full send path.  `now` is the `Date.now()` reading
taken when the user message is built; `replyNow` the reading taken when the
response (or failure) is processed.  The source's `try`/`catch`/`finally`
becomes the branch structure; `finally { setIsTyping(false) }` is the
`isTyping := false` in every completing branch. -/
def handleSendMessage (st : ChatState) (inputValue : String) (now replyNow : Nat)
    (outcome : FetchOutcome) : ChatState :=
  if jsTrim inputValue == "" then st
  else
    let userMessage : Message :=
      { id := Nat.repr now, text := jsTrim inputValue, sender := "user", timestamp := now }
    let st1 : ChatState :=
      { st with messages := st.messages ++ [userMessage], inputValue := "", isTyping := true }
    match outcome with
    | .networkError =>
      { st1 with messages := st1.messages ++ [syntheticErrorMessage replyNow]
                 isTyping := false }
    | .response status retryAfterHeader body =>
      if ! statusOk status then
        if status == 429 then
          let retrySec := retryDelaySeconds retryAfterHeader body
          let untilMs : Int := (replyNow : Int) + retrySec * 1000
          let errorMessage : Message :=
            { id := Nat.repr (replyNow + 1), text := rateLimitText retrySec
              sender := "ai", timestamp := replyNow }
          { st1 with retryUntil := some untilMs
                     retrySecondsLeft := retrySec
                     messages := st1.messages ++ [errorMessage]
                     isTyping := false }
        else
          { st1 with messages := st1.messages ++ [syntheticErrorMessage replyNow]
                     isTyping := false }
      else
        match body with
        | .parseError =>
          { st1 with messages := st1.messages ++ [syntheticErrorMessage replyNow]
                     isTyping := false }
        | .ok data =>
          let aiMessage : Message :=
            { id := Nat.repr (replyNow + 1), text := data.response.getD ""
              sender := "ai", timestamp := replyNow }
          let st2 : ChatState :=
            { st1 with messages := st1.messages ++ [aiMessage], isTyping := false }
          match data.conversation_id with
          | some c => if c == "" then st2 else { st2 with conversationId := c }
          | none => st2

/-! ### Persistence effects (the two save `useEffect`s). -/

/-- `JSON.stringify` of a message: the timestamp serializes to a defined value. -/
def serializeMessage (m : Message) : StoredMessage :=
  { id := m.id, text := m.text, sender := m.sender, timestamp := some m.timestamp }

/-- Save effect for messages: writes the `chatMessages` key whenever more than
the lone seed is present. -/
def persistMessagesEffect (st : ChatState) : ChatState :=
  if st.messages.length > 1 then
    { st with storage := { st.storage with chatMessages := some (.seq (st.messages.map serializeMessage)) } }
  else st

/-- Save effect for the conversation id: writes the key whenever non-empty. -/
def persistConversationIdEffect (st : ChatState) : ChatState :=
  if st.conversationId == "" then st
  else { st with storage := { st.storage with conversationId := some st.conversationId } }

/-! ### Mount-time load (`initialize`) and reset. -/

/-- Timestamp normalization on load:
`timestamp: m.timestamp ? new Date(m.timestamp) : new Date()`. -/
def normalizeStored (now : Nat) (m : StoredMessage) : Message :=
  { id := m.id, text := m.text, sender := m.sender, timestamp := m.timestamp.getD now }

/-- The message list after the load-on-mount effect: the saved blob replaces the
seed only when it parsed to a sequence of length `> 1`; a missing key, a parse
failure, or a short sequence keeps the fresh seed. -/
def loadMessages (welcomeText : String) (now : Nat) (blob : Option SavedBlob) :
    List Message :=
  match blob with
  | some (.seq parsedMessages) =>
    if parsedMessages.length > 1 then parsedMessages.map (normalizeStored now)
    else [seedMessage welcomeText now]
  | some .malformed => [seedMessage welcomeText now]
  | some .notSeq => [seedMessage welcomeText now]
  | none => [seedMessage welcomeText now]

/-- `if (savedConversationId) setConversationId(savedConversationId)`:
restored independently of the message blob; the empty string is falsy. -/
def loadConversationId (saved : Option String) : String :=
  match saved with
  | some c => if c == "" then "" else c
  | none => ""

/-- The component state right after mount: initial `useState` values, then the
load effect applied to what durable storage held. -/
def initializeState (welcomeText : String) (now : Nat) (blob : Option SavedBlob)
    (savedCid : Option String) : ChatState :=
  { messages := loadMessages welcomeText now blob
    inputValue := ""
    isTyping := false
    conversationId := loadConversationId savedCid
    retryUntil := none
    retrySecondsLeft := 0
    storage := { chatMessages := blob, conversationId := savedCid } }

/-- `clearChatHistory`: restore the single seed, clear the conversation id,
remove both localStorage keys. -/
def clearChatHistory (welcomeText : String) (now : Nat) (st : ChatState) : ChatState :=
  { st with messages := [seedMessage welcomeText now]
            conversationId := ""
            storage := { st.storage with chatMessages := none, conversationId := none } }

/-! ### Backoff Timer (the countdown `useEffect`). -/

/-- `Math.ceil(diff / 1000)` on an exact integer millisecond difference. -/
def msCeilSeconds (diff : Int) : Int :=
  (diff + 999) / 1000

/-- One `tick()` of the countdown effect at clock reading `now`: recompute
`secs = Math.max(0, Math.ceil((retryUntil - Date.now()) / 1000))`, store it,
and clear the deadline when it hits 0.  With no deadline set the effect body
does not tick (it only resets the display and schedules nothing). -/
def tick (now : Nat) (st : ChatState) : ChatState :=
  match st.retryUntil with
  | none => st
  | some u =>
    let secs := max 0 (msCeilSeconds (u - (now : Int)))
    { st with retrySecondsLeft := secs
              retryUntil := if secs ≤ 0 then none else some u }

/-- `k` ticks at the interval's 1-second cadence: at clock readings
`t0, t0 + 1000, …, t0 + 1000 * (k - 1)`. -/
def runTicks (t0 : Nat) (st : ChatState) : Nat → ChatState
  | 0 => st
  | k + 1 => tick (t0 + 1000 * k) (runTicks t0 st k)

/-- The send affordance's disabled condition:
`!inputValue.trim() || isTyping || !!retryUntil`. -/
def sendDisabled (st : ChatState) : Bool :=
  jsTrim st.inputValue == "" || st.isTyping || st.retryUntil.isSome

end TheGlobe

namespace TheGlobe

/-! ### Decimal rendering (`Nat.repr`, the model of `Date.now().toString()`)
is injective.  Core's `Nat.toDigitsCore` is fuel-indexed; we relate it to a
structural renering and build a left inverse out of `digitsToNat`. -/

/-- Structural decimal rendering, most significant digit first. -/
def decChars (n : Nat) : List Char :=
  if _h : n < 10 then [Nat.digitChar n]
  else decChars (n / 10) ++ [Nat.digitChar (n % 10)]
decreasing_by exact Nat.div_lt_self (by omega) (by omega)

/-! ### Further definitions used by the claim statements. -/

/-- The Thai `chat.welcome` resource string of the i18n table (the default and
fallback locale); it contains `welcomeMarker` as a prefix. -/
def thWelcome : String :=
  "สวัสดีค่ะ ดิฉันเป็นผู้ช่วย AI จะมาช่วยตอบคำถามและให้ข้อมูลเกี่ยวกับสวัสดิการภาครัฐ ยินดีให้ความช่วยเหลือค่ะ"

/-- The English `chat.welcome` resource string of the i18n table; it does not
contain `welcomeMarker`. -/
def enWelcome : String :=
  "Hello! I'm your AI assistant powered by Azure AI. I'm now live and ready to help you!"

/-- The history construction the claim describes: remove every message whose
text equals the seed welcome text, keep the last 10, map to `{role, content}`. -/
def conversationHistoryClaimed (seedText : String) (msgs : List Message) :
    List HistoryEntry :=
  (lastN 10 (msgs.filter (fun msg => ! (msg.text == seedText)))).map
    (fun msg =>
      { role := if msg.sender == "user" then "user" else "assistant"
        content := msg.text })

/-- Delay selection as the claim states it: the header value whenever the
header parses as an integer, else the body extraction, else 60. -/
def retryDelaySecondsClaimed (retryAfterHeader : Option String) (body : BodyParse) : Int :=
  match retryAfterHeader.bind jsParseIntDec with
  | some n => n
  | none => bodyRetryDelay body

/-- The error classes the generic apology notice covers: transport failure,
non-2xx non-429 status, or a JSON parse failure of a 2xx body. -/
def failureOutcome : FetchOutcome → Bool
  | .networkError => true
  | .response status _ body =>
    if ! statusOk status then status != 429
    else
      match body with
      | .parseError => true
      | .ok _ => false

/-- A session seeded in the English locale with one exchange on record. -/
def c1Messages : List Message :=
  [seedMessage enWelcome 0,
   { id := "100", text := "What is this blog?", sender := "user", timestamp := 100 },
   { id := "200", text := "It is a travel blog.", sender := "ai", timestamp := 200 }]

/-- Twelve prior turns, none containing the welcome marker. -/
def c1Turns : List Message :=
  (List.range 12).map (fun i =>
    { id := Nat.repr i, text := "turn " ++ Nat.repr i
      sender := if i % 2 == 0 then "user" else "ai", timestamp := i })

/-- A Thai-seeded session holding the twelve prior turns. -/
def c1AmendedState : ChatState :=
  { messages := seedMessage thWelcome 0 :: c1Turns
    inputValue := "", isTyping := false, conversationId := ""
    retryUntil := none, retrySecondsLeft := 0
    storage := { chatMessages := none, conversationId := none } }

/-- A 429 body whose `detail` carries a 45-second phrase. -/
def c2Body : BodyParse :=
  .ok { detail := some "retry in 45 seconds", response := none, conversation_id := none }

/-- A fresh Thai-locale session (nothing in storage). -/
def c7Start : ChatState := initializeState thWelcome 0 none none

/-- A plain successful reply carrying the given text. -/
def plainReply (text : String) : FetchOutcome :=
  .response 200 none (.ok { detail := none, response := some text, conversation_id := none })

/-- Two exchanges completed during the same millisecond (`Date.now() = 5` at
both sends, `6` at both replies). -/
def c7Final : ChatState :=
  handleSendMessage (handleSendMessage c7Start "hello" 5 6 (plainReply "first reply"))
    "again" 5 6 (plainReply "second reply")

/-- Fallback for `List.getD` lookups in concrete statements. -/
def c7Fallback : Message := seedMessage "" 0

/-- An armed sample state (deadline at 2500 ms). -/
def c3Sample : ChatState :=
  { messages := [], inputValue := "", isTyping := false, conversationId := ""
    retryUntil := some 2500, retrySecondsLeft := 3
    storage := { chatMessages := none, conversationId := none } }

/-- One full exchange as the UI performs it: the send path followed by the two
persistence `useEffect`s that fire on the resulting state change. -/
def sendAndPersist (st : ChatState) (inputValue : String) (now replyNow : Nat)
    (outcome : FetchOutcome) : ChatState :=
  persistConversationIdEffect (persistMessagesEffect
    (handleSendMessage st inputValue now replyNow outcome))

theorem toDigitsCore_eq_decChars :
    ∀ (fuel n : Nat) (acc : List Char), n < fuel →
      Nat.toDigitsCore 10 fuel n acc = decChars n ++ acc := by
  intro fuel
  induction fuel with
  | zero => intro n acc h; omega
  | succ f ih =>
    intro n acc h
    simp only [Nat.toDigitsCore]
    by_cases hz : n / 10 = 0
    · have hn : n < 10 := by omega
      simp only [hz, if_pos rfl]
      rw [decChars, dif_pos hn, Nat.mod_eq_of_lt hn]
      rfl
    · have hlt : n / 10 < f := by
        have h1 : n / 10 < n := Nat.div_lt_self (by omega) (by omega)
        omega
      simp only [if_neg hz]
      rw [ih (n / 10) (Nat.digitChar (n % 10) :: acc) hlt]
      conv_rhs => rw [decChars]
      rw [dif_neg (by omega : ¬ n < 10), List.append_assoc]
      rfl

theorem digitVal_digitChar (d : Nat) (h : d < 10) : digitVal (Nat.digitChar d) = d := by
  interval_cases d <;> decide

theorem digitsToNat_decChars (n : Nat) : digitsToNat (decChars n) = n := by
  induction n using Nat.strong_induction_on with
  | _ n ih =>
    rw [decChars]
    by_cases h : n < 10
    · rw [dif_pos h]
      simp [digitsToNat, digitVal_digitChar n h]
    · rw [dif_neg h]
      have hdiv : n / 10 < n := Nat.div_lt_self (by omega) (by omega)
      have hrec := ih (n / 10) hdiv
      simp only [digitsToNat, List.foldl_append, List.foldl_cons, List.foldl_nil] at hrec ⊢
      rw [hrec, digitVal_digitChar (n % 10) (by omega)]
      omega

theorem natRepr_injective : Function.Injective Nat.repr := by
  intro m n h
  have hdata : Nat.toDigits 10 m = Nat.toDigits 10 n := by
    have h2 := congrArg String.data h
    simpa [Nat.repr, List.asString] using h2
  have hdec : decChars m = decChars n := by
    have hm := toDigitsCore_eq_decChars (m + 1) m [] (Nat.lt_succ_self m)
    have hn := toDigitsCore_eq_decChars (n + 1) n [] (Nat.lt_succ_self n)
    simp only [List.append_nil] at hm hn
    rw [Nat.toDigits] at hdata
    rw [Nat.toDigits] at hdata
    rw [hm, hn] at hdata
    exact hdata
  calc m = digitsToNat (decChars m) := (digitsToNat_decChars m).symm
    _ = digitsToNat (decChars n) := by rw [hdec]
    _ = n := digitsToNat_decChars n

end TheGlobe

namespace TheGlobe

/-! ### Shared helper lemmas. -/

theorem tick_disarmed (now : Nat) (st : ChatState) (h : st.retryUntil = none) :
    tick now st = st := by
  simp [tick, h]

theorem runTicks_retryUntil (t0 : Nat) (st : ChatState) (u : Int)
    (h : st.retryUntil = some u) :
    ∀ k : Nat, (runTicks t0 st k).retryUntil = none
      ∨ (runTicks t0 st k).retryUntil = some u := by
  intro k
  induction k with
  | zero => right; exact h
  | succ k ih =>
    cases ih with
    | inl h0 =>
      left
      rw [runTicks, tick_disarmed _ _ h0]
      exact h0
    | inr h1 =>
      rw [runTicks]
      simp only [tick, h1]
      by_cases hs : msCeilSeconds (u - ((t0 : Int) + 1000 * (k : Int))) ≤ 0
      · left; simp [hs]
      · right; simp; omega

theorem handleSendMessage_shape (st : ChatState) (inputValue : String)
    (now replyNow : Nat) (outcome : FetchOutcome)
    (hin : (jsTrim inputValue == "") = false) :
    ∃ tail : Message,
      (handleSendMessage st inputValue now replyNow outcome).messages
        = st.messages
          ++ [{ id := Nat.repr now, text := jsTrim inputValue
                sender := "user", timestamp := now }, tail]
        ∧ tail.id = Nat.repr (replyNow + 1) := by
  cases outcome with
  | networkError =>
    refine ⟨syntheticErrorMessage replyNow, ?_, rfl⟩
    simp [handleSendMessage, hin, syntheticErrorMessage]
  | response status ra body =>
    by_cases hok : statusOk status = true
    · cases body with
      | parseError =>
        refine ⟨syntheticErrorMessage replyNow, ?_, rfl⟩
        simp [handleSendMessage, hin, hok, syntheticErrorMessage]
      | ok data =>
        refine ⟨{ id := Nat.repr (replyNow + 1), text := data.response.getD ""
                  sender := "ai", timestamp := replyNow }, ?_, rfl⟩
        cases hcid : data.conversation_id with
        | none => simp [handleSendMessage, hin, hok, hcid]
        | some c =>
          by_cases hc : (c == "") = true
          · simp [handleSendMessage, hin, hok, hcid, hc]
          · simp [handleSendMessage, hin, hok, hcid, hc]
    · by_cases h429 : (status == 429) = true
      · refine ⟨{ id := Nat.repr (replyNow + 1)
                  text := rateLimitText (retryDelaySeconds ra body)
                  sender := "ai", timestamp := replyNow }, ?_, rfl⟩
        simp [handleSendMessage, hin, hok, h429]
      · refine ⟨syntheticErrorMessage replyNow, ?_, rfl⟩
        simp [handleSendMessage, hin, hok, h429, syntheticErrorMessage]

end TheGlobe

namespace TheGlobe

/-! ### Claim theorems. -/

/-- C5: on mount, an absent message blob, a blob that fails JSON parsing, or a
blob parsing to a sequence of length at most 1 leaves the fresh single-seed
session (and `initialize` is total, so it cannot throw); a stored sequence of
length greater than 1 is restored with each serialized timestamp deserialized
back to a point-in-time value (`normalizeStored`). -/
theorem initialize_recovery (welcomeText : String) (now : Nat)
    (blob : Option SavedBlob) (savedCid : Option String) :
    ((blob = none ∨ blob = some .malformed ∨
        ∃ l, blob = some (.seq l) ∧ l.length ≤ 1) →
      (initializeState welcomeText now blob savedCid).messages
        = [seedMessage welcomeText now])
    ∧ (∀ l, blob = some (.seq l) → 1 < l.length →
      (initializeState welcomeText now blob savedCid).messages
        = l.map (normalizeStored now)) := by
  constructor
  · rintro (rfl | rfl | ⟨l, rfl, hl⟩)
    · rfl
    · rfl
    · simp [initializeState, loadMessages, Nat.not_lt.mpr hl]
  · rintro l rfl hl
    simp [initializeState, loadMessages, hl]

/-- Witness for C5: a corrupt blob yields the fresh single-seed session. -/
theorem initialize_recovery_witness :
    (initializeState thWelcome 0 (some .malformed) none).messages
      = [seedMessage thWelcome 0] :=
  (initialize_recovery thWelcome 0 (some .malformed) none).1 (Or.inr (Or.inl rfl))

/-- C6: `reset` leaves exactly the seed welcome message, an empty
`conversationId`, and both durable storage keys removed, for every prior
state. -/
theorem reset_state (welcomeText : String) (now : Nat) (st : ChatState) :
    (clearChatHistory welcomeText now st).messages = [seedMessage welcomeText now]
    ∧ (clearChatHistory welcomeText now st).conversationId = ""
    ∧ (clearChatHistory welcomeText now st).storage.chatMessages = none
    ∧ (clearChatHistory welcomeText now st).storage.conversationId = none :=
  ⟨rfl, rfl, rfl, rfl⟩

/-- C9: on mount a non-empty saved conversation id is restored regardless of
the message blob — in particular together with a corrupt blob that is
discarded for the fresh seed, so a fresh-seed session may start with a
non-empty `conversationId`. -/
theorem initialize_cid_independent (welcomeText : String) (now : Nat)
    (blob : Option SavedBlob) (c : String) (hc : c ≠ "") :
    (initializeState welcomeText now blob (some c)).conversationId = c
    ∧ (initializeState welcomeText now (some .malformed) (some c)).messages
        = [seedMessage welcomeText now] := by
  refine ⟨?_, rfl⟩
  simp [initializeState, loadConversationId, hc]

/-- Witness for C9: a corrupt blob with saved id `"abc"`. -/
theorem initialize_cid_independent_witness :
    (initializeState thWelcome 0 (some .malformed) (some "abc")).conversationId = "abc"
    ∧ (initializeState thWelcome 0 (some .malformed) (some "abc")).messages
        = [seedMessage thWelcome 0] :=
  initialize_cid_independent thWelcome 0 (some .malformed) "abc" (by decide)

/-- C10: `reset` leaves the backoff state alone: `retryUntil` and
`retrySecondsLeft` are unchanged (an armed deadline stays armed), and the send
affordance's disabled condition is exactly what it was before the reset. -/
theorem reset_preserves_backoff (welcomeText : String) (now : Nat) (st : ChatState) :
    (clearChatHistory welcomeText now st).retryUntil = st.retryUntil
    ∧ (clearChatHistory welcomeText now st).retrySecondsLeft = st.retrySecondsLeft
    ∧ (clearChatHistory welcomeText now st).isTyping = st.isTyping
    ∧ sendDisabled (clearChatHistory welcomeText now st) = sendDisabled st :=
  ⟨rfl, rfl, rfl, rfl⟩

end TheGlobe

namespace TheGlobe

theorem persistMessagesEffect_messages (st : ChatState) :
    (persistMessagesEffect st).messages = st.messages := by
  unfold persistMessagesEffect
  split <;> rfl

theorem persistMessagesEffect_conversationId (st : ChatState) :
    (persistMessagesEffect st).conversationId = st.conversationId := by
  unfold persistMessagesEffect
  split <;> rfl

theorem persistConversationIdEffect_messages (st : ChatState) :
    (persistConversationIdEffect st).messages = st.messages := by
  unfold persistConversationIdEffect
  split <;> rfl

theorem persistConversationIdEffect_conversationId (st : ChatState) :
    (persistConversationIdEffect st).conversationId = st.conversationId := by
  unfold persistConversationIdEffect
  split <;> rfl

theorem persistConversationIdEffect_storage (st : ChatState)
    (h : (st.conversationId == "") = false) :
    (persistConversationIdEffect st).storage.conversationId = some st.conversationId := by
  unfold persistConversationIdEffect
  rw [if_neg (by simp [h])]

/-- C3: while a deadline `u` is armed, a tick at clock reading `now` sets
`secondsRemaining` to `max(0, ceil((u - now)/1s))` and clears the deadline
exactly when that value is 0; ticking does nothing once disarmed (the
countdown stops); and under the fixed 1-second cadence `t0, t0+1s, …` the
deadline is cleared by the first tick at or past `u`. -/
theorem backoff_countdown (st : ChatState) (u : Int) (now : Nat)
    (h : st.retryUntil = some u) :
    ((tick now st).retrySecondsLeft = max 0 (msCeilSeconds (u - (now : Int)))
      ∧ ((tick now st).retryUntil = none ↔ (tick now st).retrySecondsLeft = 0))
    ∧ (∀ (now2 : Nat) (st2 : ChatState), st2.retryUntil = none → tick now2 st2 = st2)
    ∧ (∀ (t0 k : Nat) (st0 : ChatState), st0.retryUntil = some u →
        u ≤ (t0 : Int) + 1000 * (k : Int) →
        (runTicks t0 st0 (k + 1)).retryUntil = none) := by
  refine ⟨⟨?_, ?_⟩, ?_, ?_⟩
  · simp [tick, h]
  · simp only [tick, h]
    have h0 : (0 : Int) ≤ max 0 (msCeilSeconds (u - (now : Int))) := le_max_left 0 _
    by_cases hs : max 0 (msCeilSeconds (u - (now : Int))) ≤ 0
    · simp [hs, le_antisymm hs h0]
    · simp [hs]
      by_contra hx
      push_neg at hx
      exact hs (max_le le_rfl hx)
  · exact fun now2 st2 h2 => tick_disarmed now2 st2 h2
  · intro t0 k st0 h0 hk
    rw [runTicks]
    cases runTicks_retryUntil t0 st0 u h0 k with
    | inl hnone =>
      rw [tick_disarmed _ _ hnone]
      exact hnone
    | inr hsome =>
      simp only [tick, hsome]
      have hceil : msCeilSeconds (u - ((t0 : Int) + 1000 * (k : Int))) ≤ 0 := by
        have h9 : u - ((t0 : Int) + 1000 * (k : Int)) + 999 ≤ 999 := by omega
        have hmono := Int.ediv_le_ediv (by norm_num : (0 : Int) < 1000) h9
        simpa [msCeilSeconds] using hmono
      have hle : max 0 (msCeilSeconds (u - ((t0 : Int) + 1000 * (k : Int)))) ≤ 0 :=
        max_le le_rfl hceil
      simp [hle]

/-- Witness for C3: a deadline at 2500 ms ticked at 1000 ms, and the same
deadline cleared by the fourth cadence tick starting at 0 ms. -/
theorem backoff_countdown_witness :
    ((tick 1000 c3Sample).retrySecondsLeft
        = max 0 (msCeilSeconds ((2500 : Int) - ((1000 : Nat) : Int)))
      ∧ ((tick 1000 c3Sample).retryUntil = none
          ↔ (tick 1000 c3Sample).retrySecondsLeft = 0))
    ∧ (runTicks 0 c3Sample 4).retryUntil = none :=
  ⟨(backoff_countdown c3Sample 2500 1000 rfl).1,
   (backoff_countdown c3Sample 2500 1000 rfl).2.2 0 3 c3Sample rfl (by norm_num)⟩

/-- C4: for every failure outcome after the optimistic user append — network
error, non-2xx non-429 status, or a 2xx body that fails JSON parsing — the
send path appends exactly one synthetic assistant message carrying the fixed
apologetic `errorText` after the user message; `handleSendMessage` is a total
function, so no exception reaches the caller and the transcript is the only
error channel. -/
theorem send_failure_notice (st : ChatState) (inputValue : String)
    (now replyNow : Nat) (outcome : FetchOutcome)
    (hin : (jsTrim inputValue == "") = false)
    (hfail : failureOutcome outcome = true) :
    (handleSendMessage st inputValue now replyNow outcome).messages
      = st.messages
        ++ [{ id := Nat.repr now, text := jsTrim inputValue
              sender := "user", timestamp := now },
            { id := Nat.repr (replyNow + 1), text := errorText
              sender := "ai", timestamp := replyNow }] := by
  cases outcome with
  | networkError =>
    simp [handleSendMessage, hin, syntheticErrorMessage, List.append_assoc]
  | response status ra body =>
    by_cases hok : statusOk status = true
    · cases body with
      | parseError =>
        simp [handleSendMessage, hin, hok, syntheticErrorMessage, List.append_assoc]
      | ok data =>
        exfalso
        simp [failureOutcome, hok] at hfail
    · have h429 : (status == 429) = false := by
        simp only [failureOutcome, Bool.not_eq_true] at hfail
        rw [if_pos (by simp [hok])] at hfail
        simpa using hfail
      simp [handleSendMessage, hin, hok, h429, syntheticErrorMessage, List.append_assoc]

/-- Witness for C4: a transport failure on a fresh session. -/
theorem send_failure_notice_witness :
    (handleSendMessage c7Start "hello" 5 6 .networkError).messages
      = c7Start.messages
        ++ [{ id := Nat.repr 5, text := jsTrim "hello", sender := "user", timestamp := 5 },
            { id := Nat.repr (6 + 1), text := errorText, sender := "ai", timestamp := 6 }] :=
  send_failure_notice c7Start "hello" 5 6 .networkError (by decide) (by decide)

end TheGlobe

namespace TheGlobe

/-- C8: on a 2xx response whose body parses, send appends exactly one
assistant message carrying the body's `response` text after the user message;
a present non-empty `conversation_id` becomes the Session's `conversationId`
and is mirrored to durable storage by the save effect; an absent
`conversation_id` leaves the `conversationId` unchanged. -/
theorem send_success (st : ChatState) (inputValue : String) (now replyNow : Nat)
    (status : Nat) (ra : Option String) (data : RespJson)
    (hin : (jsTrim inputValue == "") = false) (hok : statusOk status = true) :
    (∀ r, data.response = some r →
      (sendAndPersist st inputValue now replyNow
          (.response status ra (.ok data))).messages
        = st.messages
          ++ [{ id := Nat.repr now, text := jsTrim inputValue
                sender := "user", timestamp := now },
              { id := Nat.repr (replyNow + 1), text := r
                sender := "ai", timestamp := replyNow }])
    ∧ (∀ c, data.conversation_id = some c → c ≠ "" →
        (sendAndPersist st inputValue now replyNow
            (.response status ra (.ok data))).conversationId = c
        ∧ (sendAndPersist st inputValue now replyNow
            (.response status ra (.ok data))).storage.conversationId = some c)
    ∧ (data.conversation_id = none →
        (sendAndPersist st inputValue now replyNow
            (.response status ra (.ok data))).conversationId = st.conversationId) := by
  refine ⟨?_, ?_, ?_⟩
  · intro r hr
    rw [sendAndPersist, persistConversationIdEffect_messages,
      persistMessagesEffect_messages]
    cases hcid : data.conversation_id with
    | none => simp [handleSendMessage, hin, hok, hcid, hr, List.append_assoc]
    | some c =>
      by_cases hc : (c == "") = true
      · simp [handleSendMessage, hin, hok, hcid, hc, hr, List.append_assoc]
      · simp [handleSendMessage, hin, hok, hcid, hc, hr, List.append_assoc]
  · intro c hcid hc
    have hc' : (c == "") = false := by simp [hc]
    have hy : (handleSendMessage st inputValue now replyNow
        (.response status ra (.ok data))).conversationId = c := by
      simp [handleSendMessage, hin, hok, hcid, hc']
    constructor
    · rw [sendAndPersist, persistConversationIdEffect_conversationId,
        persistMessagesEffect_conversationId]
      exact hy
    · rw [sendAndPersist]
      have h1 : (persistMessagesEffect (handleSendMessage st inputValue now replyNow
          (.response status ra (.ok data)))).conversationId = c := by
        rw [persistMessagesEffect_conversationId]
        exact hy
      rw [persistConversationIdEffect_storage _ (by simp [h1, hc]), h1]
  · intro hcid
    rw [sendAndPersist, persistConversationIdEffect_conversationId,
      persistMessagesEffect_conversationId]
    simp [handleSendMessage, hin, hok, hcid]

/-- Witness for C8: success body `{"response":"hi","conversation_id":"abc"}`
on a fresh session. -/
theorem send_success_witness :
    (sendAndPersist c7Start "hello" 5 6
        (.response 200 none (.ok { detail := none, response := some "hi"
                                   conversation_id := some "abc" }))).messages
      = c7Start.messages
        ++ [{ id := Nat.repr 5, text := jsTrim "hello", sender := "user", timestamp := 5 },
            { id := Nat.repr (6 + 1), text := "hi", sender := "ai", timestamp := 6 }]
    ∧ (sendAndPersist c7Start "hello" 5 6
        (.response 200 none (.ok { detail := none, response := some "hi"
                                   conversation_id := some "abc" }))).conversationId = "abc"
    ∧ (sendAndPersist c7Start "hello" 5 6
        (.response 200 none (.ok { detail := none, response := some "hi"
                                   conversation_id := some "abc" }))).storage.conversationId
      = some "abc" :=
  ⟨(send_success c7Start "hello" 5 6 200 none
      { detail := none, response := some "hi", conversation_id := some "abc" }
      (by decide) (by decide)).1 "hi" rfl,
   ((send_success c7Start "hello" 5 6 200 none
      { detail := none, response := some "hi", conversation_id := some "abc" }
      (by decide) (by decide)).2.1 "abc" rfl (by decide)).1,
   ((send_success c7Start "hello" 5 6 200 none
      { detail := none, response := some "hi", conversation_id := some "abc" }
      (by decide) (by decide)).2.1 "abc" rfl (by decide)).2⟩

end TheGlobe

namespace TheGlobe

/-- C1 counterexample: in a session seeded with the English locale's welcome
text plus one exchange, the code's outbound history retains the seed (the
filter tests each text for a hard-coded Thai marker, not for equality with
the session's seed), so it differs from the claim's construction, which
removes every message equal to the seed welcome text. -/
theorem send_history_counterexample :
    conversationHistory c1Messages ≠ conversationHistoryClaimed enWelcome c1Messages
    ∧ (conversationHistory c1Messages).map HistoryEntry.content
        = [enWelcome, "What is this blog?", "It is a travel blog."] := by
  exact ⟨by decide, by decide⟩

/-- C1 amended: the outbound history is built from the messages held before
the current user message is appended, with every message whose text contains
the hard-coded Thai welcome marker removed (rather than messages equal to the
session's localized seed text), then truncated to the last 10, each mapped to
`{role, content}` with role `"user"` iff the sender is user; hence for a
session whose seed text contains the marker plus 12 marker-free prior turns,
the payload is exactly the last 10 prior turns. -/
theorem send_history_amended (seedText : String) (ts : Nat) (turns : List Message)
    (st : ChatState) (input : String)
    (hseed : st.messages = seedMessage seedText ts :: turns)
    (hmark : strIncludes seedText welcomeMarker = true)
    (hturns : ∀ m ∈ turns, strIncludes m.text welcomeMarker = false)
    (hlen : turns.length = 12) :
    (buildPayload st input).conversation_history
      = (turns.drop 2).map (fun msg =>
          { role := if msg.sender == "user" then "user" else "assistant"
            content := msg.text }) := by
  show conversationHistory st.messages = _
  rw [hseed]
  unfold conversationHistory
  have hfilter : (seedMessage seedText ts :: turns).filter
      (fun msg => ! strIncludes msg.text welcomeMarker) = turns := by
    rw [List.filter_cons, if_neg (by simp [seedMessage, hmark])]
    exact List.filter_eq_self.mpr (fun m hm => by simp [hturns m hm])
  rw [hfilter]
  unfold lastN
  rw [hlen]

/-- Witness for the amended C1: the Thai seed plus 12 concrete turns. -/
theorem send_history_amended_witness :
    (buildPayload c1AmendedState "next question").conversation_history
      = (c1Turns.drop 2).map (fun msg =>
          { role := if msg.sender == "user" then "user" else "assistant"
            content := msg.text }) :=
  send_history_amended thWelcome 0 c1Turns c1AmendedState "next question" rfl
    (by decide) (by decide) (by decide)

/-- C2 counterexample: with a present but non-numeric `Retry-After` header
and a body advertising 45 seconds, the code arms 60 seconds (the body is only
consulted when the header is absent or empty), while the claim's priority
order would fall through to the body and yield 45. -/
theorem retry_delay_counterexample :
    retryDelaySeconds (some "soon") c2Body = 60
    ∧ retryDelaySecondsClaimed (some "soon") c2Body = 45 := by
  exact ⟨by decide, by decide⟩

/-- C2 amended: on HTTP 429 the delay is, in order: the header's `parseInt`
value when a non-empty `Retry-After` header is present and parses; 60 when a
non-empty header is present but fails to parse (the body is not consulted);
otherwise the first "<N> second" number of the JSON body's `detail` field,
else 60.  The Backoff Timer is armed with `now + delay`, a synthetic
assistant message reporting the delay is appended after the user message, and
send returns normally; with no header and body
`{"detail":"retry in 45 seconds"}` the armed delay is 45 seconds. -/
theorem rate_limit_behavior (st : ChatState) (inputValue : String)
    (now replyNow : Nat) (ra : Option String) (body : BodyParse)
    (hin : (jsTrim inputValue == "") = false) :
    ((handleSendMessage st inputValue now replyNow (.response 429 ra body)).retryUntil
        = some ((replyNow : Int) + retryDelaySeconds ra body * 1000)
      ∧ (handleSendMessage st inputValue now replyNow (.response 429 ra body)).retrySecondsLeft
        = retryDelaySeconds ra body
      ∧ (handleSendMessage st inputValue now replyNow (.response 429 ra body)).messages
        = st.messages
          ++ [{ id := Nat.repr now, text := jsTrim inputValue
                sender := "user", timestamp := now },
              { id := Nat.repr (replyNow + 1)
                text := rateLimitText (retryDelaySeconds ra body)
                sender := "ai", timestamp := replyNow }])
    ∧ (∀ s n, (s == "") = false → jsParseIntDec s = some n →
        retryDelaySeconds (some s) body = n)
    ∧ (∀ s, (s == "") = false → jsParseIntDec s = none →
        retryDelaySeconds (some s) body = 60)
    ∧ retryDelaySeconds none body = bodyRetryDelay body
    ∧ retryDelaySeconds none
        (.ok { detail := some "retry in 45 seconds", response := none
               conversation_id := none }) = 45 := by
  refine ⟨⟨?_, ?_, ?_⟩, ?_, ?_, ?_, ?_⟩
  · simp [handleSendMessage, hin, statusOk]
  · simp [handleSendMessage, hin, statusOk]
  · simp [handleSendMessage, hin, statusOk, List.append_assoc]
  · intro s n hs hp
    simp [retryDelaySeconds, hs, hp]
  · intro s hs hp
    simp [retryDelaySeconds, hs, hp]
  · rfl
  · decide

/-- Witness for the amended C2: a 429 with no header and the 45-second body. -/
theorem rate_limit_behavior_witness :
    (handleSendMessage c7Start "hi" 5 6 (.response 429 none c2Body)).retryUntil
        = some (((6 : Nat) : Int) + retryDelaySeconds none c2Body * 1000)
    ∧ retryDelaySeconds none
        (.ok { detail := some "retry in 45 seconds", response := none
               conversation_id := none }) = 45 :=
  ⟨(rate_limit_behavior c7Start "hi" 5 6 none c2Body (by decide)).1.1,
   (rate_limit_behavior c7Start "hi" 5 6 none c2Body (by decide)).2.2.2.2⟩

/-- C7 counterexample: two user turns sent during the same millisecond
(`Date.now()` reads 5 at both sends) receive the same id, though they are
distinct turns with different texts. -/
theorem message_id_counterexample :
    (c7Final.messages.getD 1 c7Fallback).id = (c7Final.messages.getD 3 c7Fallback).id
    ∧ (c7Final.messages.getD 1 c7Fallback).text
        ≠ (c7Final.messages.getD 3 c7Fallback).text := by
  exact ⟨by decide, by decide⟩

/-- C7 amended: ids are decimal renderings of millisecond clock readings.
The two messages appended by one send call (user message, id from the
send-time reading; synthetic or assistant reply, id from the reply-time
reading plus one) always carry distinct ids when the clock is monotone
(`now ≤ replyNow`); but ids of messages from different send calls can collide
when the turns are created within the same millisecond, as the
counterexample shows. -/
theorem send_ids_within_exchange (st : ChatState) (inputValue : String)
    (now replyNow : Nat) (outcome : FetchOutcome)
    (hin : (jsTrim inputValue == "") = false) (hclock : now ≤ replyNow) :
    List.Pairwise (fun a b => a.id ≠ b.id)
      ((handleSendMessage st inputValue now replyNow outcome).messages.drop
        st.messages.length) := by
  obtain ⟨tail, hmsgs, hid⟩ :=
    handleSendMessage_shape st inputValue now replyNow outcome hin
  rw [hmsgs, List.drop_left]
  refine List.pairwise_cons.mpr ⟨?_, ?_⟩
  · intro b hb
    have hb' : b = tail := by simpa using hb
    show Nat.repr now ≠ b.id
    rw [hb', hid]
    intro heq
    have hinj := natRepr_injective heq
    omega
  · simp

/-- Witness for the amended C7: one exchange at send time 5 and reply time 6. -/
theorem send_ids_within_exchange_witness :
    List.Pairwise (fun a b => a.id ≠ b.id)
      ((handleSendMessage c7Start "hello" 5 6 .networkError).messages.drop
        c7Start.messages.length) :=
  send_ids_within_exchange c7Start "hello" 5 6 .networkError (by decide) (by decide)

end TheGlobe
